import Mathlib

/-!
Verification development for the instauto action orchestrator
(`src/db.ts` and `src/index.ts`).

Shallow embedding conventions:
* The JSON database (`db.ts`) is modelled as a `DbState` holding the three
  collections.  The JS objects `prevFollowedUsers` / `prevUnfollowedUsers`
  (keyed by username) are modelled as lists of records together with the
  JS-object upsert `obj[key] = value` (replace in place, else append).
* JS timestamps (`Date.now()`) are natural numbers of milliseconds; the
  subtraction `now - u.time` in window queries is exact integer subtraction,
  so it is computed in `Int`.
* Every remote/UI interaction (navigation, button clicks, cookie deletion,
  sleeps) is recorded in an event trace.  `sleepEv ms devTenths` records a
  call `sleep(ms, deviation)` with the deviation in tenths (the default
  deviation `1` is recorded as `10`, the bulk-unfollow break deviation `0.1`
  as `1`).  Randomized sleep durations only scale the wait, so traces record
  the requested base duration.
* The UI oracle (which buttons/texts `getXpathElement` finds, what
  `navigateToUserAndGetData` yields) is passed in as an environment record;
  fallible operations return `Except String`.
* JS float division in the follower/following check is modelled by exact
  division in `Rat`.
-/

/-- Record schema of `FollowedUser` in `db.ts`; the optional JS fields
`failed?`/`noActionTaken?` are booleans defaulting to `false` (absent). -/
structure FollowedUser where
  username : String
  time : Nat
  failed : Bool := false
  noActionTaken : Bool := false
  deriving DecidableEq, Repr

/-- Record schema of `LikedPhoto` in `db.ts`. -/
structure LikedPhoto where
  username : String
  href : String
  time : Nat
  deriving DecidableEq, Repr

/-- The three collections held by `JSONDB`. -/
structure DbState where
  followed : List FollowedUser
  unfollowed : List FollowedUser
  liked : List LikedPhoto
  deriving DecidableEq, Repr

/-- JS object assignment `obj[user.username] = user`: replaces the record at
its existing position when the key is present, otherwise appends. -/
def upsertUser (e : FollowedUser) (l : List FollowedUser) : List FollowedUser :=
  if l.any (fun v => v.username == e.username) then
    l.map (fun v => if v.username == e.username then e else v)
  else l ++ [e]

/-- `getPrevFollowedUser` in `db.ts`: exact key lookup. -/
def getPrevFollowedUser (s : DbState) (username : String) : Option FollowedUser :=
  s.followed.find? (fun v => v.username == username)

/-- Number of records in a collection that carry the given username. -/
def countRecordsFor (l : List FollowedUser) (username : String) : Nat :=
  (l.filter (fun v => v.username == username)).length

/-- `getFollowedLastTimeUnit` in `db.ts`: records with `now - time < timeUnit`.
`now` (taken from the ambient clock by the source) is an explicit argument. -/
def getFollowedLastTimeUnit (now : Int) (followed : List FollowedUser)
    (timeUnit : Int) : List FollowedUser :=
  followed.filter (fun u => now - (u.time : Int) < timeUnit)

/-- `getUnfollowedLastTimeUnit` in `db.ts`. -/
def getUnfollowedLastTimeUnit (now : Int) (unfollowed : List FollowedUser)
    (timeUnit : Int) : List FollowedUser :=
  unfollowed.filter (fun u => now - (u.time : Int) < timeUnit)

/-- `getLikedPhotosLastTimeUnit` in `db.ts`. -/
def getLikedPhotosLastTimeUnit (now : Int) (liked : List LikedPhoto)
    (timeUnit : Int) : List LikedPhoto :=
  liked.filter (fun u => now - (u.time : Int) < timeUnit)

/-- Profile attributes extracted from the intercepted GraphQL user data
(`InstagramUser` in `index.ts`). -/
structure InstagramUser where
  id : String
  followedByCount : Nat
  followsCount : Nat
  isPrivate : Bool
  isVerified : Bool
  isBusinessAccount : Bool
  isProfessionalAccount : Bool
  fullName : String
  biography : String
  profilePicUrlHd : String
  externalUrl : Option String
  businessCategoryName : Option String
  categoryName : Option String

/-- Argument record handed to the injected `shouldFollowUser` predicate. -/
structure ShouldFollowUserData where
  username : String
  isVerified : Bool
  isBusinessAccount : Bool
  isProfessionalAccount : Bool
  fullName : String
  biography : String
  profilePicUrlHd : String
  externalUrl : Option String
  businessCategoryName : Option String
  categoryName : Option String

/-- Construction of the `shouldFollowUser` argument inside
`followUserRespectingRestrictions`. -/
def mkShouldFollowUserData (username : String) (u : InstagramUser) :
    ShouldFollowUserData :=
  { username := username
    isVerified := u.isVerified
    isBusinessAccount := u.isBusinessAccount
    isProfessionalAccount := u.isProfessionalAccount
    fullName := u.fullName
    biography := u.biography
    profilePicUrlHd := u.profilePicUrlHd
    externalUrl := u.externalUrl
    businessCategoryName := u.businessCategoryName
    categoryName := u.categoryName }

/-- The destructured `options` of `Instauto`, with the source defaults
(`maxFollowsPerHour = 20`, `maxFollowsPerDay = 150`, `maxLikesPerDay = 50`,
`followUserRatioMin = 0.2`, `followUserRatioMax = 4`, `dryRun = true`). -/
structure Config where
  maxFollowsPerHour : Nat := 20
  maxFollowsPerDay : Nat := 150
  maxLikesPerDay : Nat := 50
  followUserRatioMin : Option Rat := some (1 / 5 : Rat)
  followUserRatioMax : Option Rat := some 4
  followUserMaxFollowers : Option Nat := none
  followUserMaxFollowing : Option Nat := none
  followUserMinFollowers : Option Nat := none
  followUserMinFollowing : Option Nat := none
  shouldFollowUser : Option (ShouldFollowUserData → Bool) := none
  dryRun : Bool := true

/-- The raw `InstautoOptions` field relevant to the dry-run default: the
caller may omit `dryRun` (`none`). -/
structure InstautoOptions where
  dryRun : Option Bool := none

/-- The destructuring `dryRun = true` in `Instauto`: an omitted option
resolves to `true`. -/
def resolvedDryRun (o : InstautoOptions) : Bool := o.dryRun.getD true

/-- Observable effects of a run, in program order. -/
inductive Event where
  | navigate (username : String)
  | clickFollow (username : String)
  | clickUnfollow (username : String)
  | clickUnfollowConfirm (username : String)
  | writeFollowed (entry : FollowedUser)
  | writeUnfollowed (entry : FollowedUser)
  | sleepEv (ms : Nat) (devTenths : Nat)
  | deleteCookies
  deriving DecidableEq, Repr

/-- Number of trace events satisfying a predicate. -/
def countIf (p : Event → Bool) (tr : List Event) : Nat := (tr.filter p).length

/-- Remote mutation clicks (follow, unfollow, unfollow-confirm). -/
def isClick : Event → Bool
  | .clickFollow _ => true
  | .clickUnfollow _ => true
  | .clickUnfollowConfirm _ => true
  | _ => false

/-- Clicks of the unfollow button specifically. -/
def isUnfollowClick : Event → Bool
  | .clickUnfollow _ => true
  | _ => false

/-- Clicks of the follow button specifically. -/
def isFollowClick : Event → Bool
  | .clickFollow _ => true
  | _ => false

/-- Writes to the followed collection. -/
def isWriteFollowed : Event → Bool
  | .writeFollowed _ => true
  | _ => false

/-- Writes to the unfollowed collection. -/
def isWriteUnfollowed : Event → Bool
  | .writeUnfollowed _ => true
  | _ => false

/-- The extended break in bulk unfollow: `sleep(10 * 60 * 1000, 0.1)`. -/
def isLongBreak : Event → Bool
  | .sleepEv ms dev => ms == 600000 && dev == 1
  | _ => false

/-- Navigation requests to a user page. -/
def isNavigate : Event → Bool
  | .navigate _ => true
  | _ => false

/-- `isActionBlocked` in `index.ts`, verbatim: the argument booleans say
whether `getXpathElement` finds an element containing "Action Blocked"
resp. "Try Again Later"; the source returns `true` when the lookup comes
back null (`if (!(await getXpathElement(...))) return true`). -/
def isActionBlocked (hasActionBlockedText hasTryAgainLaterText : Bool) : Bool :=
  if !hasActionBlockedText then true
  else if !hasTryAgainLaterText then true
  else false

/-- `checkActionBlocked` in `index.ts`: when `isActionBlocked` holds, delete
the cookies, sleep 3 hours and abort with an error. -/
def checkActionBlocked (hasActionBlockedText hasTryAgainLaterText : Bool) :
    Except String Unit × List Event :=
  if isActionBlocked hasActionBlockedText hasTryAgainLaterText then
    (.error "Aborted operation due to action blocked",
      [.deleteCookies, .sleepEv 10800000 10])
  else (.ok (), [])

/-- `dayMs` in `index.ts`. -/
def dayMs : Int := 24 * 60 * 60 * 1000

/-- `hourMs` in `index.ts`. -/
def hourMs : Int := 60 * 60 * 1000

/-- `getNumFollowedUsersThisTimeUnit` in `index.ts`: recent followed records
plus recent unfollowed records that are not flagged `noActionTaken`. -/
def getNumFollowedUsersThisTimeUnit (now : Int) (s : DbState) (timeUnit : Int) :
    Nat :=
  (s.followed.filter (fun u => now - (u.time : Int) < timeUnit)).length
    + (s.unfollowed.filter
        (fun u => !u.noActionTaken && now - (u.time : Int) < timeUnit)).length

/-- `getNumLikesThisTimeUnit` in `index.ts`. -/
def getNumLikesThisTimeUnit (now : Int) (s : DbState) (timeUnit : Int) : Nat :=
  (getLikedPhotosLastTimeUnit now s.liked timeUnit).length

/-- `checkReachedFollowedUserDayLimit`: a single conditional 10-minute sleep
when the day-window count is at or above the quota. -/
def checkReachedFollowedUserDayLimit (cfg : Config) (now : Int) (s : DbState) :
    List Event :=
  if cfg.maxFollowsPerDay ≤ getNumFollowedUsersThisTimeUnit now s dayMs then
    [.sleepEv 600000 10]
  else []

/-- `checkReachedFollowedUserHourLimit`. -/
def checkReachedFollowedUserHourLimit (cfg : Config) (now : Int) (s : DbState) :
    List Event :=
  if cfg.maxFollowsPerHour ≤ getNumFollowedUsersThisTimeUnit now s hourMs then
    [.sleepEv 600000 10]
  else []

/-- `checkReachedLikedUserDayLimit`. -/
def checkReachedLikedUserDayLimit (cfg : Config) (now : Int) (s : DbState) :
    List Event :=
  if cfg.maxLikesPerDay ≤ getNumLikesThisTimeUnit now s dayMs then
    [.sleepEv 600000 10]
  else []

/-- `throttle` in `index.ts`: the day, hour and like window checks in
sequence. -/
def throttle (cfg : Config) (now : Int) (s : DbState) : List Event :=
  checkReachedFollowedUserDayLimit cfg now s
    ++ checkReachedFollowedUserHourLimit cfg now s
    ++ checkReachedLikedUserDayLimit cfg now s

/-- UI oracle for one `followUser` call: the outcome of
`navigateToUserAndGetData`, which buttons the page shows before and after
the click, which blocked-banner texts the page contains, and the clock. -/
structure FollowEnv where
  navResult : Except String (Option InstagramUser)
  followButton : Bool
  unfollowButtonPre : Bool
  hasActionBlockedText : Bool
  hasTryAgainLaterText : Bool
  unfollowButtonPost : Bool
  time : Nat

/-- `followUser` in `index.ts`.  Outcomes: no follow button but an unfollow
button means "already following" (no-op); follow button in dry-run mode is a
no-op; otherwise click, blocked check, then verification by looking for the
unfollow button: the ledger entry gets `failed := true` when the button did
not flip, is written either way, and the unverified case then raises. -/
def followUser (cfg : Config) (env : FollowEnv) (username : String)
    (s : DbState) : Except String Unit × DbState × List Event :=
  match env.navResult with
  | .error e => (.error e, s, [.navigate username])
  | .ok _ =>
    if env.followButton then
      if cfg.dryRun then
        (.ok (), s, [.navigate username, .sleepEv 1000 10])
      else
        let pre := [Event.navigate username, Event.clickFollow username,
          Event.sleepEv 5000 10]
        match checkActionBlocked env.hasActionBlockedText env.hasTryAgainLaterText with
        | (.error e, ev) => (.error e, s, pre ++ ev)
        | (.ok _, ev) =>
          let entry : FollowedUser :=
            { username := username, time := env.time,
              failed := !env.unfollowButtonPost, noActionTaken := false }
          let s' := { s with followed := upsertUser entry s.followed }
          if env.unfollowButtonPost then
            (.ok (), s', pre ++ ev ++ [.writeFollowed entry, .sleepEv 1000 10])
          else
            (.error "Button did not change state", s',
              pre ++ ev ++ [.writeFollowed entry, .sleepEv 60000 10])
    else if env.unfollowButtonPre then
      (.ok (), s, [.navigate username, .sleepEv 5000 10])
    else
      (.error "Follow button not found", s, [.navigate username])

/-- UI oracle for one `unfollowUser` call. -/
structure UnfollowEnv where
  navResult : Except String (Option InstagramUser)
  unfollowButton : Bool
  confirmButton : Bool
  hasActionBlockedText : Bool
  hasTryAgainLaterText : Bool
  followButtonAfter : Bool
  time : Nat

/-- `unfollowUser` in `index.ts`.  No unfollow button means the target is not
currently followed: the result record gets `noActionTaken := true` (both the
already-unfollowed and the button-not-found sub-branch only differ in their
log line).  Outside dry-run, an unfollow click is verified by looking for the
follow button; failure raises before the ledger write, success writes the
record and returns it. -/
def unfollowUser (cfg : Config) (env : UnfollowEnv) (username : String)
    (s : DbState) : Except String FollowedUser × DbState × List Event :=
  match env.navResult with
  | .error e => (.error e, s, [.navigate username])
  | .ok _ =>
    let res : FollowedUser :=
      { username := username, time := env.time, failed := false,
        noActionTaken := !env.unfollowButton }
    if cfg.dryRun then
      (.ok res, s, [.navigate username, .sleepEv 1000 10])
    else if env.unfollowButton then
      let confirmEv :=
        if env.confirmButton then [Event.clickUnfollowConfirm username] else []
      let pre := [Event.navigate username, Event.clickUnfollow username,
        Event.sleepEv 1000 10] ++ confirmEv ++ [Event.sleepEv 5000 10]
      match checkActionBlocked env.hasActionBlockedText env.hasTryAgainLaterText with
      | (.error e, ev) => (.error e, s, pre ++ ev)
      | (.ok _, ev) =>
        if env.followButtonAfter then
          let s' := { s with unfollowed := upsertUser res s.unfollowed }
          (.ok res, s', pre ++ ev ++ [.writeUnfollowed res, .sleepEv 1000 10])
        else
          (.error "Unfollow button did not change state", s, pre ++ ev)
    else
      let s' := { s with unfollowed := upsertUser res s.unfollowed }
      (.ok res, s', [.navigate username, .writeUnfollowed res, .sleepEv 1000 10])

/-- The follower/following bound checks of `followUserRespectingRestrictions`
(`followUserMaxFollowers` etc.; a `null` bound disables its check). -/
def countsOutOfBounds (cfg : Config) (user : InstagramUser) : Bool :=
  (match cfg.followUserMaxFollowers with
    | some m => decide (m < user.followedByCount)
    | none => false)
  || (match cfg.followUserMaxFollowing with
    | some m => decide (m < user.followsCount)
    | none => false)
  || (match cfg.followUserMinFollowers with
    | some m => decide (user.followedByCount < m)
    | none => false)
  || (match cfg.followUserMinFollowing with
    | some m => decide (user.followsCount < m)
    | none => false)

/-- `const ratio = followedByCount / (followsCount || 1)`. -/
def followRatioOf (user : InstagramUser) : Rat :=
  (user.followedByCount : Rat)
    / (if user.followsCount = 0 then 1 else (user.followsCount : Rat))

/-- The follower-to-following band check of
`followUserRespectingRestrictions`. -/
def ratioOutOfBounds (cfg : Config) (user : InstagramUser) : Bool :=
  (match cfg.followUserRatioMax with
    | some m => decide (m < followRatioOf user)
    | none => false)
  || (match cfg.followUserRatioMin with
    | some m => decide (followRatioOf user < m)
    | none => false)

/-- The injected `shouldFollowUser` predicate rejects the candidate
(`shouldFollowUser !== null && shouldFollowUser({...}) !== true`). -/
def customRejects (cfg : Config) (username : String) (user : InstagramUser) :
    Bool :=
  match cfg.shouldFollowUser with
  | none => false
  | some f => !(f (mkShouldFollowUserData username user))

/-- `followUserRespectingRestrictions` in `index.ts`: skip (returning
`false`) when a followed record already exists, when the profile data cannot
be read, or when a restriction rejects the candidate; otherwise run
`followUser`, then `sleep(30000)` and `throttle()` and return `true`. -/
def followUserRespectingRestrictions (cfg : Config) (env : FollowEnv)
    (username : String) (skipPrivate : Bool) (s : DbState) :
    Except String Bool × DbState × List Event :=
  if (getPrevFollowedUser s username).isSome then (.ok false, s, [])
  else
    match env.navResult with
    | .error e => (.error e, s, [.navigate username])
    | .ok none => (.ok false, s, [.navigate username])
    | .ok (some user) =>
      if user.isPrivate && skipPrivate then (.ok false, s, [.navigate username])
      else if countsOutOfBounds cfg user then (.ok false, s, [.navigate username])
      else if ratioOutOfBounds cfg user then (.ok false, s, [.navigate username])
      else if customRejects cfg username user then
        (.ok false, s, [.navigate username])
      else
        match followUser cfg env username s with
        | (.error e, s', ev) => (.error e, s', .navigate username :: ev)
        | (.ok _, s', ev) =>
          (.ok true, s',
            .navigate username
              :: (ev ++ [.sleepEv 30000 10] ++ throttle cfg env.time s'))

/-- One candidate of `safelyUnfollowUserList` together with its oracle: the
result of the `condition` predicate, the outcome of the loop's own
`navigateToUser` probe (`Except` because navigation may throw), the oracle
for the inner `unfollowUser` call, and the clock. -/
structure UnfollowCandidate where
  username : String
  condition : Bool
  navigateResult : Except String Bool
  env : UnfollowEnv
  time : Nat

/-- The stop test `limit && j >= limit` of `safelyUnfollowUserList`: an
omitted limit (`none`) and a zero limit are both falsy and never stop. -/
def limitReached (limit : Option Nat) (j : Nat) : Bool :=
  match limit with
  | none => false
  | some l => if l = 0 then false else decide (l ≤ j)

/-- Tail shared by every processed candidate in `safelyUnfollowUserList`:
`i += 1`, then stop when the limit test fires, otherwise `throttle`.
Returns (stopped, new i, j, state, events of this candidate). -/
def afterProcess (cfg : Config) (limit : Option Nat) (i j : Nat) (now : Int)
    (s : DbState) (ev : List Event) : Bool × Nat × Nat × DbState × List Event :=
  if limitReached limit j then (true, i + 1, j, s, ev)
  else (false, i + 1, j, s, ev ++ throttle cfg now s)

/-- Body of the `try` block of `safelyUnfollowUserList` for one candidate
whose `condition` passed: probe with `navigateToUser`; a not-found user is
flagged `noActionTaken` in the unfollowed ledger; otherwise `unfollowUser`
runs, a thrown error is caught (candidate skipped, counters unchanged), a
no-op sleeps 3 s, a real unfollow sleeps 15 s, bumps `j` and takes the
extended break after every 10th success. -/
def unfollowStep (cfg : Config) (c : UnfollowCandidate) (limit : Option Nat)
    (i j : Nat) (s : DbState) : Bool × Nat × Nat × DbState × List Event :=
  match c.navigateResult with
  | .error _ => (false, i, j, s, [.navigate c.username])
  | .ok false =>
    let entry : FollowedUser :=
      { username := c.username, time := c.time, failed := false,
        noActionTaken := true }
    let s' := { s with unfollowed := upsertUser entry s.unfollowed }
    afterProcess cfg limit i j (c.time : Int) s'
      [.navigate c.username, .writeUnfollowed entry, .sleepEv 3000 10]
  | .ok true =>
    match unfollowUser cfg c.env c.username s with
    | (.error _, s', ev) => (false, i, j, s', .navigate c.username :: ev)
    | (.ok res, s', ev) =>
      if res.noActionTaken then
        afterProcess cfg limit i j (c.time : Int) s'
          (.navigate c.username :: (ev ++ [.sleepEv 3000 10]))
      else
        let breakEv :=
          if (j + 1) % 10 = 0 then [Event.sleepEv 600000 1] else []
        afterProcess cfg limit i (j + 1) (c.time : Int) s'
          (.navigate c.username :: (ev ++ [.sleepEv 15000 10] ++ breakEv))

/-- The candidate loop of `safelyUnfollowUserList`: `i` counts processed
candidates, `j` counts actual unfollows; the function returns `j`.  The
nested string/string-array batching of the source only flattens the
sequence, so candidates are consumed one by one. -/
def safelyUnfollowGo (cfg : Config) (limit : Option Nat) :
    List UnfollowCandidate → Nat → Nat → DbState →
      Nat × DbState × List Event
  | [], _, j, s => (j, s, [])
  | c :: rest, i, j, s =>
    if c.condition then
      match unfollowStep cfg c limit i j s with
      | (true, _, j', s', ev) => (j', s', ev)
      | (false, i', j', s', ev) =>
        let r := safelyUnfollowGo cfg limit rest i' j' s'
        (r.1, r.2.1, ev ++ r.2.2)
    else safelyUnfollowGo cfg limit rest i j s

/-- `safelyUnfollowUserList` in `index.ts`, started with both counters at
zero. -/
def safelyUnfollowUserList (cfg : Config) (cands : List UnfollowCandidate)
    (limit : Option Nat) (s : DbState) : Nat × DbState × List Event :=
  safelyUnfollowGo cfg limit cands 0 0 s

/-- An `unfollowUser` oracle under which the call certainly performs and
verifies an unfollow: navigation succeeds, the unfollow button is present,
the (inverted) blocked check passes because both banner texts are present,
and the button flips to a follow button. -/
def succeedsEnv (e : UnfollowEnv) : Bool :=
  (match e.navResult with | .ok _ => true | .error _ => false)
    && e.unfollowButton && e.hasActionBlockedText && e.hasTryAgainLaterText
    && e.followButtonAfter

/-- A candidate that is eligible and whose unfollow succeeds. -/
def allSucceedCand (c : UnfollowCandidate) : Bool :=
  c.condition
    && (match c.navigateResult with | .ok true => true | _ => false)
    && succeedsEnv c.env

lemma countIf_append (p : Event → Bool) (a b : List Event) :
    countIf p (a ++ b) = countIf p a + countIf p b := by
  simp [countIf, List.filter_append]

lemma countRecordsFor_upsert_new (e : FollowedUser) (l : List FollowedUser)
    (h : l.find? (fun v => v.username == e.username) = none) :
    countRecordsFor (upsertUser e l) e.username = 1 := by
  have hall := List.find?_eq_none.mp h
  have hany : l.any (fun v => v.username == e.username) = false := by
    rw [Bool.eq_false_iff]
    intro hc
    obtain ⟨x, hx, hpx⟩ := List.any_eq_true.mp hc
    exact hall x hx hpx
  have hfil : l.filter (fun v => v.username == e.username) = [] := by
    rw [List.filter_eq_nil_iff]; exact hall
  simp [upsertUser, hany, countRecordsFor, List.filter_append, hfil]

lemma getPrev_upsert_self (s : DbState) (e : FollowedUser) :
    (getPrevFollowedUser { s with followed := upsertUser e s.followed }
      e.username).isSome = true := by
  simp only [getPrevFollowedUser]
  rw [List.find?_isSome]
  by_cases hany : s.followed.any (fun v => v.username == e.username) = true
  · obtain ⟨x, hx, hpx⟩ := List.any_eq_true.mp hany
    refine ⟨e, ?_, by simp⟩
    rw [upsertUser, if_pos hany]
    exact List.mem_map.mpr ⟨x, hx, by simp [hpx]⟩
  · refine ⟨e, ?_, by simp⟩
    rw [upsertUser, if_neg hany]
    simp

lemma countIf_throttle (p : Event → Bool) (hp : ∀ ms, p (.sleepEv ms 10) = false)
    (cfg : Config) (now : Int) (s : DbState) :
    countIf p (throttle cfg now s) = 0 := by
  unfold throttle checkReachedFollowedUserDayLimit
    checkReachedFollowedUserHourLimit checkReachedLikedUserDayLimit
  split_ifs <;> simp [countIf, hp]

lemma allSucceedCand_condition {c : UnfollowCandidate}
    (h : allSucceedCand c = true) : c.condition = true := by
  simp only [allSucceedCand, Bool.and_eq_true] at h
  exact h.1.1

lemma allSucceedCand_nav {c : UnfollowCandidate}
    (h : allSucceedCand c = true) : c.navigateResult = .ok true := by
  simp only [allSucceedCand, Bool.and_eq_true] at h
  rcases hnv : c.navigateResult with e | b
  · rw [hnv] at h; exact absurd h.1.2 (by simp)
  · cases b
    · rw [hnv] at h; exact absurd h.1.2 (by simp)
    · rfl

lemma allSucceedCand_env {c : UnfollowCandidate}
    (h : allSucceedCand c = true) : succeedsEnv c.env = true := by
  simp only [allSucceedCand, Bool.and_eq_true] at h
  exact h.2

lemma limitReached_some (l j : Nat) (hl : l ≠ 0) :
    limitReached (some l) j = decide (l ≤ j) := by
  simp [limitReached, hl]

lemma unfollowUser_succeeds (cfg : Config) (e : UnfollowEnv) (u : String)
    (s : DbState) (hdry : cfg.dryRun = false) (hs : succeedsEnv e = true) :
    ∃ ev, unfollowUser cfg e u s =
      (.ok { username := u, time := e.time, failed := false, noActionTaken := false },
       { s with
         unfollowed := upsertUser
           ({ username := u, time := e.time, failed := false,
              noActionTaken := false }) s.unfollowed },
       ev)
      ∧ countIf isUnfollowClick ev = 1
      ∧ countIf isLongBreak ev = 0
      ∧ countIf isNavigate ev = 1 := by
  have hnavex : ∃ dd, e.navResult = .ok dd := by
    rcases hnv : e.navResult with er | dd
    · rw [succeedsEnv, hnv] at hs; simp at hs
    · exact ⟨dd, rfl⟩
  obtain ⟨dd, hnav⟩ := hnavex
  rw [succeedsEnv, hnav] at hs
  simp only [Bool.true_and, Bool.and_eq_true] at hs
  obtain ⟨⟨⟨hbtn, hab⟩, htal⟩, hafter⟩ := hs
  refine ⟨[Event.navigate u, Event.clickUnfollow u, Event.sleepEv 1000 10]
      ++ (if e.confirmButton then [Event.clickUnfollowConfirm u] else [])
      ++ [Event.sleepEv 5000 10]
      ++ [Event.writeUnfollowed
            { username := u, time := e.time, failed := false,
              noActionTaken := false },
          Event.sleepEv 1000 10], ?_, ?_, ?_, ?_⟩
  · simp [unfollowUser, hnav, hdry, hbtn, hab, htal, hafter,
      checkActionBlocked, isActionBlocked]
  · by_cases hcb : e.confirmButton = true <;>
      simp [countIf, isUnfollowClick, hcb]
  · by_cases hcb : e.confirmButton = true <;>
      simp [countIf, isLongBreak, hcb]
  · by_cases hcb : e.confirmButton = true <;>
      simp [countIf, isNavigate, hcb]

lemma countIf_nil (p : Event → Bool) : countIf p [] = 0 := rfl

lemma countIf_cons (p : Event → Bool) (x : Event) (xs : List Event) :
    countIf p (x :: xs) = (if p x then 1 else 0) + countIf p xs := by
  rw [countIf, List.filter_cons]
  split_ifs with hx <;> simp [countIf, Nat.add_comm]

lemma unfollowStep_succeeds (cfg : Config) (c : UnfollowCandidate)
    (limit : Option Nat) (i j : Nat) (s : DbState)
    (hdry : cfg.dryRun = false) (hc : allSucceedCand c = true) :
    ∃ s' ev,
      unfollowStep cfg c limit i j s
        = (limitReached limit (j + 1), i + 1, j + 1, s', ev)
      ∧ countIf isUnfollowClick ev = 1
      ∧ countIf isLongBreak ev = (if (j + 1) % 10 = 0 then 1 else 0)
      ∧ countIf isNavigate ev = 2 := by
  have hcnav := allSucceedCand_nav hc
  have hsenv := allSucceedCand_env hc
  obtain ⟨ev0, hrun, h1, h2, h3⟩ :=
    unfollowUser_succeeds cfg c.env c.username s hdry hsenv
  by_cases hlr : limitReached limit (j + 1) = true
  · refine ⟨{ s with
        unfollowed := upsertUser
          ({ username := c.username, time := c.env.time, failed := false,
             noActionTaken := false }) s.unfollowed },
      Event.navigate c.username
        :: (ev0 ++ [Event.sleepEv 15000 10]
          ++ (if (j + 1) % 10 = 0 then [Event.sleepEv 600000 1] else [])),
      ?_, ?_, ?_, ?_⟩
    · simp [unfollowStep, hcnav, hrun, afterProcess, hlr]
    · rw [countIf_cons, countIf_append, countIf_append, h1]
      by_cases hm : (j + 1) % 10 = 0 <;> simp [hm, countIf, isUnfollowClick]
    · rw [countIf_cons, countIf_append, countIf_append, h2]
      by_cases hm : (j + 1) % 10 = 0 <;> simp [hm, countIf, isLongBreak]
    · rw [countIf_cons, countIf_append, countIf_append, h3]
      by_cases hm : (j + 1) % 10 = 0 <;> simp [hm, countIf, isNavigate]
  · rw [Bool.not_eq_true] at hlr
    refine ⟨{ s with
        unfollowed := upsertUser
          ({ username := c.username, time := c.env.time, failed := false,
             noActionTaken := false }) s.unfollowed },
      (Event.navigate c.username
        :: (ev0 ++ [Event.sleepEv 15000 10]
          ++ (if (j + 1) % 10 = 0 then [Event.sleepEv 600000 1] else [])))
        ++ throttle cfg (c.time : Int)
            { s with
              unfollowed := upsertUser
                ({ username := c.username, time := c.env.time, failed := false,
                   noActionTaken := false }) s.unfollowed },
      ?_, ?_, ?_, ?_⟩
    · simp [unfollowStep, hcnav, hrun, afterProcess, hlr]
    · rw [countIf_append, countIf_throttle isUnfollowClick (fun ms => rfl),
        countIf_cons, countIf_append, countIf_append, h1]
      by_cases hm : (j + 1) % 10 = 0 <;> simp [hm, countIf, isUnfollowClick]
    · rw [countIf_append,
        countIf_throttle isLongBreak (fun ms => by simp [isLongBreak]),
        countIf_cons, countIf_append, countIf_append, h2]
      by_cases hm : (j + 1) % 10 = 0 <;> simp [hm, countIf, isLongBreak]
    · rw [countIf_append, countIf_throttle isNavigate (fun ms => rfl),
        countIf_cons, countIf_append, countIf_append, h3]
      by_cases hm : (j + 1) % 10 = 0 <;> simp [hm, countIf, isNavigate]

lemma afterProcess_limit_zero (cfg : Config) (i j : Nat) (now : Int)
    (s : DbState) (ev : List Event) :
    afterProcess cfg (some 0) i j now s ev
      = afterProcess cfg none i j now s ev := by
  simp [afterProcess, limitReached]

lemma unfollowStep_limit_zero (cfg : Config) (c : UnfollowCandidate)
    (i j : Nat) (s : DbState) :
    unfollowStep cfg c (some 0) i j s = unfollowStep cfg c none i j s := by
  simp only [unfollowStep, afterProcess_limit_zero]

lemma go_limit_zero (cfg : Config) :
    ∀ (cands : List UnfollowCandidate) (i j : Nat) (s : DbState),
      safelyUnfollowGo cfg (some 0) cands i j s
        = safelyUnfollowGo cfg none cands i j s := by
  intro cands
  induction cands with
  | nil => intro i j s; rfl
  | cons c rest ih =>
    intro i j s
    simp only [safelyUnfollowGo, unfollowStep_limit_zero, ih]

lemma go_none_allSucceed (cfg : Config) (hdry : cfg.dryRun = false) :
    ∀ (cands : List UnfollowCandidate),
      (∀ c ∈ cands, allSucceedCand c = true) →
      ∀ (i j : Nat) (s : DbState),
        (safelyUnfollowGo cfg none cands i j s).1 = j + cands.length
        ∧ countIf isUnfollowClick (safelyUnfollowGo cfg none cands i j s).2.2
            = cands.length
        ∧ countIf isNavigate (safelyUnfollowGo cfg none cands i j s).2.2
            = 2 * cands.length := by
  intro cands
  induction cands with
  | nil => intro h i j s; simp [safelyUnfollowGo, countIf]
  | cons c rest ih =>
    intro h i j s
    have hc := h c (List.mem_cons_self c rest)
    have hcond := allSucceedCand_condition hc
    obtain ⟨s', ev, hstep, h1, h2, h3⟩ :=
      unfollowStep_succeeds cfg c none i j s hdry hc
    rw [show limitReached none (j + 1) = false from rfl] at hstep
    have hrest : ∀ x ∈ rest, allSucceedCand x = true :=
      fun x hx => h x (List.mem_cons_of_mem c hx)
    obtain ⟨ih1, ih2, ih3⟩ := ih hrest (i + 1) (j + 1) s'
    have hreduce : safelyUnfollowGo cfg none (c :: rest) i j s
        = ((safelyUnfollowGo cfg none rest (i + 1) (j + 1) s').1,
           (safelyUnfollowGo cfg none rest (i + 1) (j + 1) s').2.1,
           ev ++ (safelyUnfollowGo cfg none rest (i + 1) (j + 1) s').2.2) := by
      simp [safelyUnfollowGo, hcond, hstep]
    rw [hreduce]
    refine ⟨?_, ?_, ?_⟩
    · simp only [ih1, List.length_cons]; omega
    · simp only [countIf_append, h1, ih2, List.length_cons]; omega
    · simp only [countIf_append, h3, ih3, List.length_cons]; omega

lemma go_some_allSucceed (cfg : Config) (hdry : cfg.dryRun = false)
    (l : Nat) (hl : 0 < l) :
    ∀ (cands : List UnfollowCandidate),
      (∀ c ∈ cands, allSucceedCand c = true) →
      ∀ (i j : Nat) (s : DbState), j < l →
        (safelyUnfollowGo cfg (some l) cands i j s).1
            = min l (j + cands.length)
        ∧ countIf isUnfollowClick
            (safelyUnfollowGo cfg (some l) cands i j s).2.2
            = min l (j + cands.length) - j
        ∧ countIf isLongBreak (safelyUnfollowGo cfg (some l) cands i j s).2.2
            = min l (j + cands.length) / 10 - j / 10
        ∧ countIf isNavigate (safelyUnfollowGo cfg (some l) cands i j s).2.2
            = 2 * (min l (j + cands.length) - j) := by
  intro cands
  induction cands with
  | nil =>
    intro h i j s hj
    refine ⟨?_, ?_, ?_, ?_⟩ <;> simp [safelyUnfollowGo, countIf] <;> omega
  | cons c rest ih =>
    intro h i j s hj
    have hc := h c (List.mem_cons_self c rest)
    have hcond := allSucceedCand_condition hc
    obtain ⟨s', ev, hstep, h1, h2, h3⟩ :=
      unfollowStep_succeeds cfg c (some l) i j s hdry hc
    rw [limitReached_some l (j + 1) (by omega)] at hstep
    by_cases hstop : l ≤ j + 1
    · rw [decide_eq_true hstop] at hstep
      have hreduce : safelyUnfollowGo cfg (some l) (c :: rest) i j s
          = (j + 1, s', ev) := by
        simp [safelyUnfollowGo, hcond, hstep]
      rw [hreduce]
      refine ⟨?_, ?_, ?_, ?_⟩
      · simp only [List.length_cons]; omega
      · rw [h1]; simp only [List.length_cons]; omega
      · rw [h2]; simp only [List.length_cons]
        by_cases hm : (j + 1) % 10 = 0 <;> simp only [hm, if_true, if_false] <;>
          omega
      · rw [h3]; simp only [List.length_cons]; omega
    · rw [decide_eq_false (by omega)] at hstep
      have hrest : ∀ x ∈ rest, allSucceedCand x = true :=
        fun x hx => h x (List.mem_cons_of_mem c hx)
      obtain ⟨ih1, ih2, ih3, ih4⟩ := ih hrest (i + 1) (j + 1) s' (by omega)
      have hreduce : safelyUnfollowGo cfg (some l) (c :: rest) i j s
          = ((safelyUnfollowGo cfg (some l) rest (i + 1) (j + 1) s').1,
             (safelyUnfollowGo cfg (some l) rest (i + 1) (j + 1) s').2.1,
             ev ++ (safelyUnfollowGo cfg (some l) rest (i + 1) (j + 1) s').2.2) := by
        simp [safelyUnfollowGo, hcond, hstep]
      rw [hreduce]
      refine ⟨?_, ?_, ?_, ?_⟩
      · simp only [ih1, List.length_cons]; omega
      · rw [countIf_append, h1, ih2]; simp only [List.length_cons]; omega
      · rw [countIf_append, h2, ih3]; simp only [List.length_cons]
        by_cases hm : (j + 1) % 10 = 0 <;> simp only [hm, if_true, if_false] <;>
          omega
      · rw [countIf_append, h3, ih4]; simp only [List.length_cons]; omega

/-- The fully defaulted configuration with dry-run switched off. -/
def cfgOff : Config := { dryRun := false }

/-- The empty database state. -/
def dbEmpty : DbState := { followed := [], unfollowed := [], liked := [] }

/-- C3: the blocked-condition check evaluated at the decisive page states.
The source negates the element lookups, so a page with neither banner text
(the normal page state) is classified as blocked, and the check then deletes
the cookies, sleeps 3 hours and raises; a page showing both banner texts is
classified as not blocked and the check returns normally. -/
theorem C3_blocked_check_inverted :
    isActionBlocked false false = true
    ∧ isActionBlocked true false = true
    ∧ isActionBlocked false true = true
    ∧ isActionBlocked true true = false
    ∧ checkActionBlocked false false
        = (.error "Aborted operation due to action blocked",
            [.deleteCookies, .sleepEv 10800000 10])
    ∧ checkActionBlocked true true = (.ok (), []) :=
  ⟨rfl, rfl, rfl, rfl, rfl, rfl⟩

/-- C7: a window query returns exactly the records with
`now - timestamp < d` (strictly), in all three collections; when every
stored timestamp is at most `now`, duration `0` yields the empty list, and
any duration exceeding `now` yields the whole collection. -/
theorem C7_window_query (now d : Int) (fl ufl : List FollowedUser)
    (ll : List LikedPhoto) :
    (∀ u, u ∈ getFollowedLastTimeUnit now fl d
        ↔ u ∈ fl ∧ now - (u.time : Int) < d)
    ∧ (∀ u, u ∈ getUnfollowedLastTimeUnit now ufl d
        ↔ u ∈ ufl ∧ now - (u.time : Int) < d)
    ∧ (∀ u, u ∈ getLikedPhotosLastTimeUnit now ll d
        ↔ u ∈ ll ∧ now - (u.time : Int) < d)
    ∧ ((∀ u ∈ fl, (u.time : Int) ≤ now) → getFollowedLastTimeUnit now fl 0 = [])
    ∧ ((∀ u ∈ ufl, (u.time : Int) ≤ now) →
        getUnfollowedLastTimeUnit now ufl 0 = [])
    ∧ ((∀ u ∈ ll, (u.time : Int) ≤ now) →
        getLikedPhotosLastTimeUnit now ll 0 = [])
    ∧ (now < d → getFollowedLastTimeUnit now fl d = fl)
    ∧ (now < d → getUnfollowedLastTimeUnit now ufl d = ufl)
    ∧ (now < d → getLikedPhotosLastTimeUnit now ll d = ll) := by
  refine ⟨?_, ?_, ?_, ?_, ?_, ?_, ?_, ?_, ?_⟩
  · intro u; simp [getFollowedLastTimeUnit, List.mem_filter]
  · intro u; simp [getUnfollowedLastTimeUnit, List.mem_filter]
  · intro u; simp [getLikedPhotosLastTimeUnit, List.mem_filter]
  · intro h
    rw [getFollowedLastTimeUnit, List.filter_eq_nil_iff]
    intro a ha
    have := h a ha
    simp only [decide_eq_true_eq]
    omega
  · intro h
    rw [getUnfollowedLastTimeUnit, List.filter_eq_nil_iff]
    intro a ha
    have := h a ha
    simp only [decide_eq_true_eq]
    omega
  · intro h
    rw [getLikedPhotosLastTimeUnit, List.filter_eq_nil_iff]
    intro a ha
    have := h a ha
    simp only [decide_eq_true_eq]
    omega
  · intro h
    rw [getFollowedLastTimeUnit, List.filter_eq_self]
    intro a _
    simp only [decide_eq_true_eq]
    omega
  · intro h
    rw [getUnfollowedLastTimeUnit, List.filter_eq_self]
    intro a _
    simp only [decide_eq_true_eq]
    omega
  · intro h
    rw [getLikedPhotosLastTimeUnit, List.filter_eq_self]
    intro a _
    simp only [decide_eq_true_eq]
    omega

/-- Witness for C7: concrete evaluations of the boundary cases. -/
theorem C7_window_query_witness :
    getFollowedLastTimeUnit 100 [{ username := "a", time := 90 }] 0 = []
    ∧ getLikedPhotosLastTimeUnit 100 [{ username := "a", href := "h", time := 90 }]
        200 = [{ username := "a", href := "h", time := 90 }] := by
  refine ⟨(C7_window_query 100 0 [{ username := "a", time := 90 }] [] []).2.2.2.1
    (by decide), ?_⟩
  exact (C7_window_query 100 200 [] []
    [{ username := "a", href := "h", time := 90 }]).2.2.2.2.2.2.2.2 (by decide)

/-- C2 as stated is false on the code: the quota checks do not loop.  With a
day quota of 1 and two fresh combined follow/unfollow records, the day check
performs exactly one 10-minute sleep and returns, although even after the
longest possible randomized sleep (twice the base duration) the day-window
count is still at the quota, so the action proceeds while the window is
still full. -/
theorem C2_counterexample :
    checkReachedFollowedUserDayLimit ({ maxFollowsPerDay := 1 }) 1000000
        ({ followed := [{ username := "a", time := 1000000 },
                        { username := "b", time := 1000000 }],
           unfollowed := [], liked := [] })
      = [.sleepEv 600000 10]
    ∧ 1 ≤ getNumFollowedUsersThisTimeUnit (1000000 + 2 * 600000)
        ({ followed := [{ username := "a", time := 1000000 },
                        { username := "b", time := 1000000 }],
           unfollowed := [], liked := [] }) dayMs := by decide

/-- C2 amended: before each action, each applicable window check sleeps the
fixed 10-minute cooldown exactly once when its count is at or above the
quota and then proceeds without re-checking; it never sleeps when the count
is strictly below the quota; a full throttle pass is at most three sleeps. -/
theorem C2_throttle_single_sleep (cfg : Config) (now : Int) (s : DbState) :
    (getNumFollowedUsersThisTimeUnit now s dayMs < cfg.maxFollowsPerDay →
      checkReachedFollowedUserDayLimit cfg now s = [])
    ∧ (cfg.maxFollowsPerDay ≤ getNumFollowedUsersThisTimeUnit now s dayMs →
      checkReachedFollowedUserDayLimit cfg now s = [.sleepEv 600000 10])
    ∧ (getNumFollowedUsersThisTimeUnit now s hourMs < cfg.maxFollowsPerHour →
      checkReachedFollowedUserHourLimit cfg now s = [])
    ∧ (cfg.maxFollowsPerHour ≤ getNumFollowedUsersThisTimeUnit now s hourMs →
      checkReachedFollowedUserHourLimit cfg now s = [.sleepEv 600000 10])
    ∧ (getNumLikesThisTimeUnit now s dayMs < cfg.maxLikesPerDay →
      checkReachedLikedUserDayLimit cfg now s = [])
    ∧ (cfg.maxLikesPerDay ≤ getNumLikesThisTimeUnit now s dayMs →
      checkReachedLikedUserDayLimit cfg now s = [.sleepEv 600000 10])
    ∧ (throttle cfg now s).length ≤ 3 := by
  refine ⟨?_, ?_, ?_, ?_, ?_, ?_, ?_⟩
  · intro h; rw [checkReachedFollowedUserDayLimit, if_neg (Nat.not_le.mpr h)]
  · intro h; rw [checkReachedFollowedUserDayLimit, if_pos h]
  · intro h; rw [checkReachedFollowedUserHourLimit, if_neg (Nat.not_le.mpr h)]
  · intro h; rw [checkReachedFollowedUserHourLimit, if_pos h]
  · intro h; rw [checkReachedLikedUserDayLimit, if_neg (Nat.not_le.mpr h)]
  · intro h; rw [checkReachedLikedUserDayLimit, if_pos h]
  · unfold throttle checkReachedFollowedUserDayLimit
      checkReachedFollowedUserHourLimit checkReachedLikedUserDayLimit
    split_ifs <;> simp

/-- Witness for the amended C2: a below-quota state sleeps nowhere, an
at-quota state sleeps once. -/
theorem C2_throttle_single_sleep_witness :
    checkReachedFollowedUserDayLimit ({ maxFollowsPerDay := 5 }) 0 dbEmpty = []
    ∧ checkReachedFollowedUserDayLimit ({ maxFollowsPerDay := 0 }) 0 dbEmpty
        = [.sleepEv 600000 10] := by
  exact ⟨(C2_throttle_single_sleep ({ maxFollowsPerDay := 5 }) 0 dbEmpty).1
      (by decide),
    (C2_throttle_single_sleep ({ maxFollowsPerDay := 0 }) 0 dbEmpty).2.1
      (by decide)⟩

/-- C4: when navigation succeeds and the executor finds no unfollow button
(the target is not currently followed), `unfollowUser` outside dry-run
returns the record flagged `noActionTaken`, performs exactly one unfollowed
ledger write for it, and raises no error. -/
theorem C4_unfollow_not_following (cfg : Config) (env : UnfollowEnv)
    (u : String) (s : DbState) (d : Option InstagramUser)
    (hdry : cfg.dryRun = false) (hnav : env.navResult = .ok d)
    (hbtn : env.unfollowButton = false) :
    unfollowUser cfg env u s =
      (.ok { username := u, time := env.time, failed := false, noActionTaken := true },
       { s with
         unfollowed := upsertUser
           ({ username := u, time := env.time, failed := false,
              noActionTaken := true }) s.unfollowed },
       [.navigate u,
        .writeUnfollowed { username := u, time := env.time, failed := false, noActionTaken := true },
        .sleepEv 1000 10]) := by
  simp [unfollowUser, hnav, hdry, hbtn]

/-- Witness for C4 on a concrete environment. -/
theorem C4_unfollow_not_following_witness :
    unfollowUser cfgOff
      ({ navResult := .ok none, unfollowButton := false, confirmButton := false,
         hasActionBlockedText := true, hasTryAgainLaterText := true,
         followButtonAfter := false, time := 42 }) "bob" dbEmpty =
      (.ok { username := "bob", time := 42, failed := false, noActionTaken := true },
       { dbEmpty with
         unfollowed := upsertUser
           ({ username := "bob", time := 42, failed := false,
              noActionTaken := true }) dbEmpty.unfollowed },
       [.navigate "bob",
        .writeUnfollowed { username := "bob", time := 42, failed := false, noActionTaken := true },
        .sleepEv 1000 10]) :=
  C4_unfollow_not_following cfgOff _ "bob" dbEmpty none rfl rfl rfl

/-- C5: on the follow path outside dry-run, when the blocked check passes
but the follow button does not flip to an unfollow button, the entry is
upserted with `failed := true` and only then the recoverable error is
raised; the trace contains exactly one follow click (no in-call retry). -/
theorem C5_follow_unconfirmed (cfg : Config) (env : FollowEnv) (u : String)
    (s : DbState) (d : Option InstagramUser)
    (hdry : cfg.dryRun = false) (hnav : env.navResult = .ok d)
    (hbtn : env.followButton = true)
    (hab : env.hasActionBlockedText = true)
    (htal : env.hasTryAgainLaterText = true)
    (hver : env.unfollowButtonPost = false) :
    followUser cfg env u s =
      (.error "Button did not change state",
       { s with
         followed := upsertUser
           ({ username := u, time := env.time, failed := true,
              noActionTaken := false }) s.followed },
       [.navigate u, .clickFollow u, .sleepEv 5000 10,
        .writeFollowed { username := u, time := env.time, failed := true, noActionTaken := false },
        .sleepEv 60000 10]) := by
  simp [followUser, hnav, hdry, hbtn, hver, checkActionBlocked,
    isActionBlocked, hab, htal]

/-- Witness for C5 on a concrete environment. -/
theorem C5_follow_unconfirmed_witness :
    followUser cfgOff
      ({ navResult := .ok none, followButton := true, unfollowButtonPre := false,
         hasActionBlockedText := true, hasTryAgainLaterText := true,
         unfollowButtonPost := false, time := 7 }) "eve" dbEmpty =
      (.error "Button did not change state",
       { dbEmpty with
         followed := upsertUser
           ({ username := "eve", time := 7, failed := true,
              noActionTaken := false }) dbEmpty.followed },
       [.navigate "eve", .clickFollow "eve", .sleepEv 5000 10,
        .writeFollowed { username := "eve", time := 7, failed := true, noActionTaken := false },
        .sleepEv 60000 10]) :=
  C5_follow_unconfirmed cfgOff _ "eve" dbEmpty none rfl rfl rfl rfl rfl rfl

/-- C6: on the unfollow path outside dry-run, when the blocked check passes
but the follow button does not reappear after the click, `unfollowUser`
raises the hard error and the database state is returned unchanged — the
trace holds no ledger write for this attempt. -/
theorem C6_unfollow_unconfirmed (cfg : Config) (env : UnfollowEnv)
    (u : String) (s : DbState) (d : Option InstagramUser)
    (hdry : cfg.dryRun = false) (hnav : env.navResult = .ok d)
    (hbtn : env.unfollowButton = true)
    (hab : env.hasActionBlockedText = true)
    (htal : env.hasTryAgainLaterText = true)
    (hver : env.followButtonAfter = false) :
    unfollowUser cfg env u s =
      (.error "Unfollow button did not change state", s,
       [.navigate u, .clickUnfollow u, .sleepEv 1000 10]
         ++ (if env.confirmButton then [Event.clickUnfollowConfirm u] else [])
         ++ [.sleepEv 5000 10]) := by
  simp [unfollowUser, hnav, hdry, hbtn, hver, checkActionBlocked,
    isActionBlocked, hab, htal]

/-- Witness for C6 on a concrete environment. -/
theorem C6_unfollow_unconfirmed_witness :
    unfollowUser cfgOff
      ({ navResult := .ok none, unfollowButton := true, confirmButton := true,
         hasActionBlockedText := true, hasTryAgainLaterText := true,
         followButtonAfter := false, time := 9 }) "mallory" dbEmpty =
      (.error "Unfollow button did not change state", dbEmpty,
       [.navigate "mallory", .clickUnfollow "mallory", .sleepEv 1000 10]
         ++ [Event.clickUnfollowConfirm "mallory"]
         ++ [.sleepEv 5000 10]) := by
  have h := C6_unfollow_unconfirmed cfgOff
    ({ navResult := .ok none, unfollowButton := true, confirmButton := true,
       hasActionBlockedText := true, hasTryAgainLaterText := true,
       followButtonAfter := false, time := 9 }) "mallory" dbEmpty none
    rfl rfl rfl rfl rfl rfl
  simpa using h

/-- C10: with dry-run enabled, `followUser` and `unfollowUser` leave the
database untouched and their traces contain no remote mutation click and no
ledger write; and an omitted `dryRun` option resolves to `true`. -/
theorem C10_dry_run_frame :
    (∀ (cfg : Config) (env : FollowEnv) (u : String) (s : DbState),
      cfg.dryRun = true →
        (followUser cfg env u s).2.1 = s
        ∧ countIf isClick (followUser cfg env u s).2.2 = 0
        ∧ countIf isWriteFollowed (followUser cfg env u s).2.2 = 0
        ∧ countIf isWriteUnfollowed (followUser cfg env u s).2.2 = 0)
    ∧ (∀ (cfg : Config) (env : UnfollowEnv) (u : String) (s : DbState),
      cfg.dryRun = true →
        (unfollowUser cfg env u s).2.1 = s
        ∧ countIf isClick (unfollowUser cfg env u s).2.2 = 0
        ∧ countIf isWriteFollowed (unfollowUser cfg env u s).2.2 = 0
        ∧ countIf isWriteUnfollowed (unfollowUser cfg env u s).2.2 = 0)
    ∧ resolvedDryRun {} = true := by
  refine ⟨?_, ?_, rfl⟩
  · intro cfg env u s h
    cases hnav : env.navResult with
    | error e =>
      simp [followUser, hnav, countIf, isClick, isWriteFollowed,
        isWriteUnfollowed]
    | ok d =>
      by_cases hb : env.followButton
      · simp [followUser, hnav, h, hb, countIf, isClick, isWriteFollowed,
          isWriteUnfollowed]
      · by_cases hu : env.unfollowButtonPre <;>
          simp [followUser, hnav, h, hb, hu, countIf, isClick,
            isWriteFollowed, isWriteUnfollowed]
  · intro cfg env u s h
    cases hnav : env.navResult with
    | error e =>
      simp [unfollowUser, hnav, countIf, isClick, isWriteFollowed,
        isWriteUnfollowed]
    | ok d =>
      simp [unfollowUser, hnav, h, countIf, isClick, isWriteFollowed,
        isWriteUnfollowed]

lemma followUser_executes (cfg : Config) (env : FollowEnv) (u : String)
    (s : DbState) (dd : Option InstagramUser)
    (hdry : cfg.dryRun = false) (hnav : env.navResult = .ok dd)
    (hbtn : env.followButton = true)
    (hab : env.hasActionBlockedText = true)
    (htal : env.hasTryAgainLaterText = true) :
    (followUser cfg env u s).2.1
      = { s with
          followed := upsertUser
            ({ username := u, time := env.time,
               failed := !env.unfollowButtonPost, noActionTaken := false })
            s.followed }
    ∧ countIf isFollowClick (followUser cfg env u s).2.2 = 1 := by
  by_cases hpost : env.unfollowButtonPost = true
  · simp [followUser, hnav, hdry, hbtn, hab, htal, hpost, checkActionBlocked,
      isActionBlocked, countIf, isFollowClick]
  · rw [Bool.not_eq_true] at hpost
    simp [followUser, hnav, hdry, hbtn, hab, htal, hpost, checkActionBlocked,
      isActionBlocked, countIf, isFollowClick]

lemma fURR_passes_to_followUser (cfg : Config) (env : FollowEnv) (u : String)
    (sp : Bool) (s : DbState) (d : InstagramUser)
    (h0 : getPrevFollowedUser s u = none)
    (hnav : env.navResult = .ok (some d))
    (hpriv : (d.isPrivate && sp) = false)
    (hcnt : countsOutOfBounds cfg d = false)
    (hrat : ratioOutOfBounds cfg d = false)
    (hcust : customRejects cfg u d = false) :
    (followUserRespectingRestrictions cfg env u sp s).2.1
        = (followUser cfg env u s).2.1
    ∧ countIf isFollowClick
        (followUserRespectingRestrictions cfg env u sp s).2.2
        = countIf isFollowClick (followUser cfg env u s).2.2 := by
  have hth := countIf_throttle isFollowClick (fun ms => rfl) cfg
    (env.time : Int) (followUser cfg env u s).2.1
  rcases hfu : followUser cfg env u s with ⟨r, s', ev⟩
  rw [hfu] at hth
  simp only at hth
  have hnotsome : (getPrevFollowedUser s u).isSome = false := by rw [h0]; rfl
  cases r with
  | error e =>
    simp [followUserRespectingRestrictions, hnotsome, hnav, hpriv, hcnt,
      hrat, hcust, hfu, countIf_cons, isFollowClick]
  | ok v =>
    simp [followUserRespectingRestrictions, hnotsome, hnav, hpriv, hcnt,
      hrat, hcust, hfu, countIf_cons, countIf_append, countIf_nil, hth,
      isFollowClick]

/-- C1: follow idempotency over the ledger.  First part: a candidate with an
existing followed record (its `failed` flag does not matter) is a terminal
no-op of the batch follow — result `false`, state untouched, empty trace.
Second part: starting with no record, when the restriction checks pass and
the follow executes (dry-run off, follow button present, blocked check
passing), the run leaves exactly one followed record for the username and
exactly one follow click, and a second batch follow of the same username
afterwards is the terminal no-op regardless of its environment. -/
theorem C1_follow_idempotent :
    (∀ (cfg : Config) (env : FollowEnv) (u : String) (sp : Bool) (s : DbState)
      (r : FollowedUser), getPrevFollowedUser s u = some r →
        followUserRespectingRestrictions cfg env u sp s = (.ok false, s, []))
    ∧ (∀ (cfg : Config) (env : FollowEnv) (u : String) (sp : Bool)
      (s : DbState) (d : InstagramUser),
        getPrevFollowedUser s u = none →
        cfg.dryRun = false →
        env.navResult = .ok (some d) →
        (d.isPrivate && sp) = false →
        countsOutOfBounds cfg d = false →
        ratioOutOfBounds cfg d = false →
        customRejects cfg u d = false →
        env.followButton = true →
        env.hasActionBlockedText = true →
        env.hasTryAgainLaterText = true →
        countRecordsFor
          (followUserRespectingRestrictions cfg env u sp s).2.1.followed u = 1
        ∧ countIf isFollowClick
            (followUserRespectingRestrictions cfg env u sp s).2.2 = 1
        ∧ ∀ (env2 : FollowEnv) (sp2 : Bool),
            followUserRespectingRestrictions cfg env2 u sp2
              (followUserRespectingRestrictions cfg env u sp s).2.1
            = (.ok false,
               (followUserRespectingRestrictions cfg env u sp s).2.1, [])) := by
  constructor
  · intro cfg env u sp s r h
    have hsome : (getPrevFollowedUser s u).isSome = true := by rw [h]; rfl
    simp [followUserRespectingRestrictions, hsome]
  · intro cfg env u sp s d h0 hdry hnav hpriv hcnt hrat hcust hbtn hab htal
    obtain ⟨hstate, hclicks⟩ :=
      fURR_passes_to_followUser cfg env u sp s d h0 hnav hpriv hcnt hrat hcust
    obtain ⟨hfs, hfc⟩ :=
      followUser_executes cfg env u s (some d) hdry hnav hbtn hab htal
    have hstate2 : (followUserRespectingRestrictions cfg env u sp s).2.1
        = { s with
            followed := upsertUser
              ({ username := u, time := env.time,
                 failed := !env.unfollowButtonPost, noActionTaken := false })
              s.followed } := by rw [hstate, hfs]
    refine ⟨?_, ?_, ?_⟩
    · rw [hstate2]
      exact countRecordsFor_upsert_new
        ({ username := u, time := env.time,
           failed := !env.unfollowButtonPost, noActionTaken := false })
        s.followed h0
    · rw [hclicks, hfc]
    · intro env2 sp2
      generalize hgen : (followUserRespectingRestrictions cfg env u sp s).2.1
        = S
      have hsome : (getPrevFollowedUser S u).isSome = true := by
        rw [← hgen, hstate2]
        exact getPrev_upsert_self s
          ({ username := u, time := env.time,
             failed := !env.unfollowButtonPost, noActionTaken := false })
      simp [followUserRespectingRestrictions, hsome]

/-- A concrete profile that passes every default restriction. -/
def userPlain : InstagramUser :=
  { id := "1", followedByCount := 10, followsCount := 10, isPrivate := false,
    isVerified := false, isBusinessAccount := false,
    isProfessionalAccount := false, fullName := "", biography := "",
    profilePicUrlHd := "", externalUrl := none,
    businessCategoryName := none, categoryName := none }

/-- Witness for C1: a ledgered username (with `failed = true`) is skipped
as a no-op, and a fresh username followed once holds exactly one record. -/
theorem C1_follow_idempotent_witness :
    followUserRespectingRestrictions cfgOff
      ({ navResult := .ok (some userPlain), followButton := true,
         unfollowButtonPre := false, hasActionBlockedText := true,
         hasTryAgainLaterText := true, unfollowButtonPost := true,
         time := 3 }) "zoe" false
      ({ followed := [{ username := "zoe", time := 0, failed := true }],
         unfollowed := [], liked := [] })
      = (.ok false,
         { followed := [{ username := "zoe", time := 0, failed := true }],
           unfollowed := [], liked := [] }, [])
    ∧ countRecordsFor
        (followUserRespectingRestrictions cfgOff
          ({ navResult := .ok (some userPlain), followButton := true,
             unfollowButtonPre := false, hasActionBlockedText := true,
             hasTryAgainLaterText := true, unfollowButtonPost := true,
             time := 3 }) "zoe" false dbEmpty).2.1.followed "zoe" = 1 := by
  constructor
  · exact C1_follow_idempotent.1 cfgOff _ "zoe" false _
      { username := "zoe", time := 0, failed := true } (by decide)
  · have hrat : ratioOutOfBounds cfgOff userPlain = false := by
      have h1 : followRatioOf userPlain = 1 := by
        norm_num [followRatioOf, userPlain]
      simp [ratioOutOfBounds, cfgOff, h1]
      norm_num
    exact (C1_follow_idempotent.2 cfgOff _ "zoe" false dbEmpty userPlain
      (by decide) rfl rfl (by decide) (by decide) hrat (by decide)
      rfl rfl rfl).1

/-- A concrete candidate that is eligible and whose unfollow succeeds: the
loop probe finds the user, the unfollow button is present, the blocked check
passes (both banner texts present, per the inverted source check) and the
button flips back to a follow button. -/
def candOK : UnfollowCandidate :=
  { username := "t", condition := true, navigateResult := .ok true,
    env := { navResult := .ok none, unfollowButton := true,
             confirmButton := true, hasActionBlockedText := true,
             hasTryAgainLaterText := true, followButtonAfter := true,
             time := 0 },
    time := 0 }

/-- C8: bulk unfollow over all-eligible, all-succeeding candidates with a
positive limit performs exactly `min limit n` unfollow clicks, returns that
count (`j`, counted separately from the processed counter), processes only
`min limit n` candidates (two navigations each) — stopping immediately at
the limit-th success — and takes the extended randomized break after every
10th successful unfollow. -/
theorem C8_bulk_unfollow_limit (cfg : Config) (cands : List UnfollowCandidate)
    (l : Nat) (s : DbState) (hdry : cfg.dryRun = false) (hl : 0 < l)
    (hall : ∀ c ∈ cands, allSucceedCand c = true) :
    (safelyUnfollowUserList cfg cands (some l) s).1 = min l cands.length
    ∧ countIf isUnfollowClick
        (safelyUnfollowUserList cfg cands (some l) s).2.2 = min l cands.length
    ∧ countIf isLongBreak (safelyUnfollowUserList cfg cands (some l) s).2.2
        = min l cands.length / 10
    ∧ countIf isNavigate (safelyUnfollowUserList cfg cands (some l) s).2.2
        = 2 * min l cands.length := by
  obtain ⟨a, b, c, d⟩ := go_some_allSucceed cfg hdry l hl cands hall 0 0 s hl
  rw [safelyUnfollowUserList]
  refine ⟨?_, ?_, ?_, ?_⟩
  · rw [a]; omega
  · rw [b]; omega
  · rw [c]; omega
  · rw [d]; omega

/-- Witness for C8: `limit = 5` against 20 eligible, all-succeeding
candidates yields exactly 5 unfollow clicks and returns 5. -/
theorem C8_bulk_unfollow_limit_witness :
    (safelyUnfollowUserList cfgOff (List.replicate 20 candOK) (some 5)
        dbEmpty).1 = min 5 (List.replicate 20 candOK).length
    ∧ countIf isUnfollowClick
        (safelyUnfollowUserList cfgOff (List.replicate 20 candOK) (some 5)
          dbEmpty).2.2 = min 5 (List.replicate 20 candOK).length := by
  have h := C8_bulk_unfollow_limit cfgOff (List.replicate 20 candOK) 5 dbEmpty
    rfl (by decide) (by decide)
  exact ⟨h.1, h.2.1⟩

/-- C9: a falsy limit (`0`, or `undefined` modelled as `none`) disables the
stop test entirely — the run with limit `0` equals the run with no limit on
every input; in particular, over all-succeeding candidates it never stops at
zero unfollows but processes the whole source (two navigations per
candidate) and returns the total actually-unfollowed count. -/
theorem C9_falsy_limit (cfg : Config) :
    (∀ (cands : List UnfollowCandidate) (i j : Nat) (s : DbState),
      safelyUnfollowGo cfg (some 0) cands i j s
        = safelyUnfollowGo cfg none cands i j s)
    ∧ (cfg.dryRun = false →
      ∀ (cands : List UnfollowCandidate) (s : DbState),
        (∀ c ∈ cands, allSucceedCand c = true) →
        (safelyUnfollowUserList cfg cands (some 0) s).1 = cands.length
        ∧ countIf isUnfollowClick
            (safelyUnfollowUserList cfg cands (some 0) s).2.2 = cands.length
        ∧ countIf isNavigate
            (safelyUnfollowUserList cfg cands (some 0) s).2.2
            = 2 * cands.length) := by
  refine ⟨go_limit_zero cfg, ?_⟩
  intro hdry cands s hall
  rw [safelyUnfollowUserList, go_limit_zero cfg]
  simpa using go_none_allSucceed cfg hdry cands hall 0 0 s

/-- Witness for C9: limit `0` over 3 all-succeeding candidates unfollows all
3 and returns 3. -/
theorem C9_falsy_limit_witness :
    (safelyUnfollowUserList cfgOff (List.replicate 3 candOK) (some 0)
        dbEmpty).1 = (List.replicate 3 candOK).length :=
  ((C9_falsy_limit cfgOff).2 rfl (List.replicate 3 candOK) dbEmpty
    (by decide)).1

/-- Witness for C10: a dry-run follow and unfollow on a concrete
environment change nothing. -/
theorem C10_dry_run_frame_witness :
    (followUser ({ } : Config)
      ({ navResult := .ok none, followButton := true,
         unfollowButtonPre := false, hasActionBlockedText := false,
         hasTryAgainLaterText := false, unfollowButtonPost := false,
         time := 1 }) "alice" dbEmpty).2.1 = dbEmpty
    ∧ (unfollowUser ({ } : Config)
      ({ navResult := .ok none, unfollowButton := true,
         confirmButton := true, hasActionBlockedText := false,
         hasTryAgainLaterText := false, followButtonAfter := false,
         time := 1 }) "alice" dbEmpty).2.1 = dbEmpty := by
  exact ⟨(C10_dry_run_frame.1 ({ } : Config) _ "alice" dbEmpty rfl).1,
    (C10_dry_run_frame.2.1 ({ } : Config) _ "alice" dbEmpty rfl).1⟩
